import Mathlib

/-!
Verification of the benchmarking harness `RunningTimeExperiment`
(`src/notebooks/RunningTimeExperiment.py`).

The harness registers problem instances `(input_size, instance)` and named
algorithms `(name, func)`, times repeated executions of every
algorithm/instance pair into a nested measurement table
`result[name][size] : List Float`, validates that all algorithms agree on the
first instance, and builds a Plotly figure from the table.

Modelling conventions:
* `self.result` is a `defaultdict(lambda: defaultdict(list))`; we model it
  extensionally as a total function `String → Int → List ℚ` whose default
  value is `[]`, exactly the value a `defaultdict` lookup yields.
* Elapsed wall-clock seconds are nondeterministic inputs; we model the
  successive readings of `datetime.now()` differences as an ambient sequence
  `clock : Nat → ℚ` consumed one entry per timed execution (rationals stand
  in for the measured seconds; the harness only stores, counts and averages
  them).
* Methods that mutate `self` are modelled as functions returning the updated
  harness; `validate`, which can fail on either of its two `assert`
  statements, returns `Except ExpError`, with one error constructor per
  assertion site (`assert self.instances and self.algorithms` and
  `assert all(...)`, the spec's `PreconditionError` and `ValidationError`).
* `create_figure` can raise `ZeroDivisionError` (at
  `sum(runtime) / len(runtime)` for an empty sample list) or `IndexError`
  (at `qualitative.Plotly[i]` for `i ≥ 10`), so it returns
  `Except FigError Figure`.
-/

/-- The measurement table `self.result`: algorithm name → input size →
recorded elapsed-time samples, with `defaultdict` default `[]`. -/
abbrev Table := String → Int → List ℚ

/-- The freshly initialised (or freshly cleared) measurement table. -/
def emptyTable : Table := fun _ _ => []

/-- The harness state: `self.instances`, `self.algorithms`, `self.result`.
`α` is the payload type of instances, `β` the result type of algorithms. -/
structure RunningTimeExperiment (α β : Type) where
  instances : List (Int × α)
  algorithms : List (String × (α → β))
  result : Table

variable {α β : Type}

/-- `add_instance(self, input_size, instance)`: appends one problem instance. -/
def RunningTimeExperiment.add_instance (h : RunningTimeExperiment α β)
    (input_size : Int) (inst : α) : RunningTimeExperiment α β :=
  { h with instances := h.instances ++ [(input_size, inst)] }

/-- `add_algorithm(self, name, func)`: appends one algorithm implementation. -/
def RunningTimeExperiment.add_algorithm (h : RunningTimeExperiment α β)
    (name : String) (func : α → β) : RunningTimeExperiment α β :=
  { h with algorithms := h.algorithms ++ [(name, func)] }

/-- One `self.result[alg][n] += [elapsed.total_seconds()]` update: appends the
sample `x` to the sequence at key `(alg, n)` and leaves every other key alone. -/
def recordSample (T : Table) (alg : String) (n : Int) (x : ℚ) : Table :=
  fun a m => if a = alg ∧ m = n then T a m ++ [x] else T a m

/-- The innermost loop of `run`: `for _ in range(num_iterations)` — times the
algorithm `k` times on one instance, appending one clock reading per
iteration and advancing the clock cursor. -/
def runMeasure (clock : Nat → ℚ) (alg : String) (n : Int) :
    Nat → Table × Nat → Table × Nat
  | 0, s => s
  | Nat.succ k, s => runMeasure clock alg n k (recordSample s.1 alg n (clock s.2), s.2 + 1)

/-- The middle loop of `run`: `for n, inst in self.instances` (the call
`f(inst)` itself is timed; its return value is discarded). -/
def runInstances (clock : Nat → ℚ) (alg : String) (k : Nat) :
    List (Int × α) → Table × Nat → Table × Nat
  | [], s => s
  | (n, _) :: rest, s => runInstances clock alg k rest (runMeasure clock alg n k s)

/-- The outer loop of `run`: `for alg, f in self.algorithms`. -/
def runAlgorithms (clock : Nat → ℚ) (instances : List (Int × α)) (k : Nat) :
    List (String × (α → β)) → Table × Nat → Table × Nat
  | [], s => s
  | (alg, _) :: rest, s =>
      runAlgorithms clock instances k rest (runInstances clock alg k instances s)

/-- `run(self, num_iterations)`: `self.result.clear()` followed by the three
nested timing loops. The registries are untouched. -/
def RunningTimeExperiment.run (h : RunningTimeExperiment α β) (clock : Nat → ℚ)
    (num_iterations : Nat) : RunningTimeExperiment α β :=
  { h with result := (runAlgorithms clock h.instances num_iterations h.algorithms (emptyTable, 0)).1 }

/-- `run(self)` with `num_iterations` omitted: the Python default is `3`. -/
def RunningTimeExperiment.runDefault (h : RunningTimeExperiment α β)
    (clock : Nat → ℚ) : RunningTimeExperiment α β :=
  h.run clock 3

/-- Number of registered instances whose size equals `s`. -/
def countSize (l : List (Int × α)) (s : Int) : Nat :=
  l.countP (fun p => decide (p.1 = s))

/-- Number of registered algorithms whose name equals `a`. -/
def countName (l : List (String × (α → β))) (a : String) : Nat :=
  l.countP (fun p => decide (p.1 = a))

theorem countSize_cons (n : Int) (x : α) (l : List (Int × α)) (s : Int) :
    countSize ((n, x) :: l) s = countSize l s + (if n = s then 1 else 0) := by
  simp [countSize, List.countP_cons]

theorem countName_cons (b : String) (f : α → β) (l : List (String × (α → β))) (a : String) :
    countName ((b, f) :: l) a = countName l a + (if b = a then 1 else 0) := by
  simp [countName, List.countP_cons]

theorem recordSample_length (T : Table) (alg : String) (n : Int) (x : ℚ)
    (a : String) (s : Int) :
    ((recordSample T alg n x) a s).length
      = (T a s).length + (if a = alg ∧ s = n then 1 else 0) := by
  simp only [recordSample]
  by_cases hc : a = alg ∧ s = n
  · simp [hc]
  · simp [hc]

theorem runMeasure_length (clock : Nat → ℚ) (alg : String) (n : Int) :
    ∀ (k : Nat) (T : Table) (c : Nat) (a : String) (s : Int),
    ((runMeasure clock alg n k (T, c)).1 a s).length
      = (T a s).length + (if a = alg ∧ s = n then k else 0) := by
  intro k
  induction k with
  | zero => intro T c a s; simp [runMeasure]
  | succ k ih =>
      intro T c a s
      rw [runMeasure, ih, recordSample_length]
      by_cases hc : a = alg ∧ s = n
      · simp [hc]
        omega
      · simp [hc]

theorem runInstances_length (clock : Nat → ℚ) (alg : String) (k : Nat) :
    ∀ (l : List (Int × α)) (T : Table) (c : Nat) (a : String) (s : Int),
    ((runInstances clock alg k l (T, c)).1 a s).length
      = (T a s).length + (if a = alg then k * countSize l s else 0) := by
  intro l
  induction l with
  | nil => intro T c a s; simp [runInstances, countSize]
  | cons p rest ih =>
      intro T c a s
      obtain ⟨n, inst⟩ := p
      rw [runInstances]
      rcases hm : runMeasure clock alg n k (T, c) with ⟨Tm, cm⟩
      have hTm : (Tm a s).length = (T a s).length + (if a = alg ∧ s = n then k else 0) := by
        have hh := runMeasure_length clock alg n k T c a s
        rw [hm] at hh
        exact hh
      rw [ih Tm cm a s, hTm, countSize_cons]
      by_cases ha : a = alg
      · by_cases hs : s = n
        · simp [ha, hs]
          ring
        · have hns : ¬ (n = s) := fun heq => hs heq.symm
          simp [ha, hs, hns]
      · simp [ha]

theorem runAlgorithms_length (clock : Nat → ℚ) (instances : List (Int × α)) (k : Nat) :
    ∀ (l : List (String × (α → β))) (T : Table) (c : Nat) (a : String) (s : Int),
    ((runAlgorithms clock instances k l (T, c)).1 a s).length
      = (T a s).length + k * countSize instances s * countName l a := by
  intro l
  induction l with
  | nil => intro T c a s; simp [runAlgorithms, countName]
  | cons p rest ih =>
      intro T c a s
      obtain ⟨alg, f⟩ := p
      rw [runAlgorithms]
      rcases hm : runInstances clock alg k instances (T, c) with ⟨Ti, ci⟩
      have hTi : (Ti a s).length = (T a s).length + (if a = alg then k * countSize instances s else 0) := by
        have hh := runInstances_length clock alg k instances T c a s
        rw [hm] at hh
        exact hh
      rw [ih Ti ci a s, hTi, countName_cons]
      by_cases ha : a = alg
      · simp [ha]
        ring
      · have hna : ¬ (alg = a) := fun hqq => ha hqq.symm
        simp [ha, hna]

/-- C1 (amended): after `run(k)`, the sample sequence stored at algorithm
name `a` and size `s` has length `k` times the number of registered instances
of size `s` times the number of registered algorithms named `a` (so with
pairwise-distinct algorithm names it is `k` times the number of instances of
that size, samples of instances sharing a size accumulating into one
sequence); `num_iterations` defaults to `3`. -/
theorem run_sample_counts (h : RunningTimeExperiment α β) (clock : Nat → ℚ)
    (k : Nat) (a : String) (s : Int) :
    (((h.run clock k).result) a s).length
        = k * countSize h.instances s * countName h.algorithms a
    ∧ h.runDefault clock = h.run clock 3 := by
  constructor
  · have hh := runAlgorithms_length clock h.instances k h.algorithms emptyTable 0 a s
    simpa [RunningTimeExperiment.run, emptyTable] using hh
  · rfl

/-- Concrete harness with two algorithms sharing the name `"x"`: their
samples merge under one table key. -/
def wDupName : RunningTimeExperiment Nat Nat :=
  ⟨[((0 : Int), 7)], [("x", fun m => m), ("x", fun m => m + 1)], emptyTable⟩

/-- C1 counterexample: with two registered algorithms both named `"x"` and a
single instance of size `0`, after `run(1)` the sequence `result["x"][0]` has
length `2`, not `1 * (number of instances of size 0) = 1` as the claim
states. -/
theorem run_sample_counts_counterexample :
    ¬ (((wDupName.run (fun _ => 0) 1).result "x" 0).length
        = 1 * countSize wDupName.instances 0) := by
  decide

/-- C5: `run` clears the measurement table on entry, so a second call wipes
every sample of the first: running `run(k₁)` and then `run(k₂)` leaves the
harness in exactly the state a single `run(k₂)` produces, and that state's
table is what `run(k₂)` builds from a fresh (empty) table. -/
theorem run_resets (h : RunningTimeExperiment α β) (c₁ c₂ : Nat → ℚ) (k₁ k₂ : Nat) :
    (h.run c₁ k₁).run c₂ k₂ = h.run c₂ k₂
    ∧ (h.run c₂ k₂).result
        = ((RunningTimeExperiment.mk h.instances h.algorithms emptyTable).run c₂ k₂).result :=
  ⟨rfl, rfl⟩

/-- C10: `run(0)` clears the table and records nothing: afterwards every
lookup `result[a][s]` yields the empty sequence, whatever was recorded
before and however many instances and algorithms are registered. -/
theorem run_zero_empty (h : RunningTimeExperiment α β) (clock : Nat → ℚ)
    (a : String) (s : Int) :
    ((h.run clock 0).result) a s = [] := by
  have hh := runAlgorithms_length clock h.instances 0 h.algorithms emptyTable 0 a s
  have hlen : (((h.run clock 0).result) a s).length = 0 := by
    simpa [RunningTimeExperiment.run, emptyTable] using hh
  exact List.length_eq_zero.mp hlen

/-- The two `assert` failure modes of `validate`: the spec's
`PreconditionError` (empty registries, `assert self.instances and
self.algorithms`) and `ValidationError` (`assert all(...)`,
"Algorithm is not correct"). -/
inductive ExpError
  | precondition
  | validation
deriving DecidableEq

/-- `validate(self)`: requires nonempty registries, then compares every
algorithm's output on the first instance's payload with the first
algorithm's output (`expected`). Returns the harness to make explicit that
the method leaves the state untouched (the Python method returns `None` and
assigns to no field). -/
def RunningTimeExperiment.validate [DecidableEq β] (h : RunningTimeExperiment α β) :
    Except ExpError (RunningTimeExperiment α β) :=
  match h.instances, h.algorithms with
  | [], _ => Except.error ExpError.precondition
  | _ :: _, [] => Except.error ExpError.precondition
  | (_, inst) :: _, (_, f0) :: rest =>
      if rest.all (fun p => decide (p.2 inst = f0 inst)) then Except.ok h
      else Except.error ExpError.validation

/-- C3: `validate` fails with the precondition error exactly when the
instance registry or the algorithm registry is empty; with at least one
instance and one algorithm no precondition failure occurs. -/
theorem validate_precondition [DecidableEq β] (h : RunningTimeExperiment α β) :
    h.validate = Except.error ExpError.precondition
      ↔ (h.instances = [] ∨ h.algorithms = []) := by
  rcases hI : h.instances with _ | ⟨⟨s0, x0⟩, is⟩ <;>
    rcases hA : h.algorithms with _ | ⟨⟨a0, f0⟩, as⟩ <;>
      simp [RunningTimeExperiment.validate, hI, hA]
  split <;> simp

/-- C2: with at least one instance and one algorithm registered, `validate`
succeeds exactly when every registered algorithm applied to the first
instance's payload returns the first algorithm's result on that payload, and
any disagreement makes it fail with the validation error. -/
theorem validate_agreement [DecidableEq β] (h : RunningTimeExperiment α β)
    (s0 : Int) (x0 : α) (is : List (Int × α))
    (a0 : String) (f0 : α → β) (as : List (String × (α → β)))
    (hI : h.instances = (s0, x0) :: is) (hA : h.algorithms = (a0, f0) :: as) :
    (h.validate = Except.ok h ↔ ∀ p ∈ h.algorithms, p.2 x0 = f0 x0)
    ∧ ((∃ p ∈ h.algorithms, p.2 x0 ≠ f0 x0)
        → h.validate = Except.error ExpError.validation) := by
  have hP : (∀ p ∈ (a0, f0) :: as, p.2 x0 = f0 x0) ↔ (∀ p ∈ as, p.2 x0 = f0 x0) := by
    constructor
    · intro hall p hp
      exact hall p (List.mem_cons_of_mem _ hp)
    · intro hall p hp
      rcases List.mem_cons.mp hp with hhd | htl
      · rw [hhd]
      · exact hall p htl
  simp only [RunningTimeExperiment.validate, hI, hA]
  by_cases hall : ∀ p ∈ as, p.2 x0 = f0 x0
  · have hb : (as.all (fun p => decide (p.2 x0 = f0 x0))) = true := by
      rw [List.all_eq_true]
      intro p hp
      simpa using hall p hp
    rw [if_pos hb]
    constructor
    · exact iff_of_true rfl (hP.mpr hall)
    · rintro ⟨p, hp, hne⟩
      exact absurd (hP.mpr hall p hp) hne
  · have hb : ¬ ((as.all (fun p => decide (p.2 x0 = f0 x0))) = true) := by
      rw [List.all_eq_true]
      intro hcon
      exact hall (fun p hp => by simpa using hcon p hp)
    rw [if_neg hb]
    constructor
    · constructor
      · intro hcon
        exact absurd hcon (by simp)
      · intro hcon
        exact absurd (hP.mp hcon) hall
    · intro _
      rfl

/-- Concrete harness whose two algorithms agree on the first payload. -/
def wAgree : RunningTimeExperiment Nat Nat :=
  ⟨[((1 : Int), 5)], [("a", fun m => m + 1), ("b", fun m => 1 + m)], emptyTable⟩

theorem validate_agreement_witness :
    RunningTimeExperiment.validate wAgree = Except.ok wAgree :=
  (validate_agreement wAgree 1 5 [] "a" (fun m => m + 1) [("b", fun m => 1 + m)]
      rfl rfl).1.mpr (by
    intro p hp
    rcases List.mem_cons.mp hp with hh | hp2
    · rw [hh]
    · rcases List.mem_cons.mp hp2 with hh | hp3
      · rw [hh]
      · exact absurd hp3 (List.not_mem_nil p))

theorem validate_ok_eq [DecidableEq β] (h h₂ : RunningTimeExperiment α β)
    (hv : h.validate = Except.ok h₂) : h₂ = h := by
  unfold RunningTimeExperiment.validate at hv
  rcases hI : h.instances with _ | ⟨⟨s0, x0⟩, is⟩ <;>
    rcases hA : h.algorithms with _ | ⟨⟨a0, f0⟩, as⟩ <;>
      rw [hI, hA] at hv <;> simp at hv
  split at hv
  · injection hv with hh
    exact hh.symm
  · cases hv

/-- C9: a successful `validate` leaves the harness state unchanged — the
instance registry, the algorithm registry and the measurement table are
identical before and after the call. -/
theorem validate_preserves_state [DecidableEq β] (h h₂ : RunningTimeExperiment α β)
    (hv : h.validate = Except.ok h₂) :
    h₂.instances = h.instances ∧ h₂.algorithms = h.algorithms ∧ h₂.result = h.result := by
  rw [validate_ok_eq h h₂ hv]
  exact ⟨rfl, rfl, rfl⟩

/-- Concrete harness on which `validate` succeeds. -/
def wFrame : RunningTimeExperiment Nat Nat :=
  ⟨[((1 : Int), 5)], [("a", fun m => m + 1)], emptyTable⟩

theorem validate_preserves_state_witness :
    wFrame.instances = wFrame.instances ∧ wFrame.algorithms = wFrame.algorithms
      ∧ wFrame.result = wFrame.result :=
  validate_preserves_state wFrame wFrame rfl

/-- The fixed color palette `plotly.colors.qualitative.Plotly` (10 colors)
that `create_figure` indexes into. -/
def plotlyPalette : List String :=
  ["#636EFA", "#EF553B", "#00CC96", "#AB63FA", "#FFA15A",
   "#19D3F3", "#FF6692", "#B6E880", "#FF97FF", "#FECB52"]

/-- The Python exceptions `create_figure` can raise: `ZeroDivisionError`
from `sum(runtime) / len(runtime)` and `IndexError` from
`qualitative.Plotly[i]`. -/
inductive FigError
  | divisionByZero
  | indexError
deriving DecidableEq

/-- `qualitative.Plotly[i]`: plain list indexing, raising `IndexError` out of
range (Python's negative-index semantics never arises: `i` is a loop
counter `≥ 0`). -/
def getColor (i : Nat) : Except FigError String :=
  match plotlyPalette.get? i with
  | some c => Except.ok c
  | none => Except.error FigError.indexError

/-- The two Plotly trace constructors the figure uses. -/
inductive TraceKind
  | violin
  | scatter
deriving DecidableEq

/-- One Plotly trace, restricted to the attributes `create_figure` sets. -/
structure Trace where
  kind : TraceKind
  x : List Int
  y : List ℚ
  name : String
  showlegend : Bool
  mode : Option String
  lineColor : String
  fillColor : Option String
deriving DecidableEq

/-- The figure object, restricted to the attributes `create_figure` sets
(traces in insertion order, the two axes, and the layout update). -/
structure Figure where
  traces : List Trace
  xaxis_title : String
  xaxis_type : String
  yaxis_title : String
  yaxis_type : String
  title : String
  showlegend : Bool
  width : Nat
  height : Nat
deriving DecidableEq

/-- The `go.Violin(...)` trace of one algorithm: raw samples at their sizes,
`showlegend=False`, outline color `colors[0]`, `fillcolor=colors[1]`. -/
def mkViolin (alg c0 c1 : String) (xs : List Int) (ys : List ℚ) : Trace :=
  { kind := TraceKind.violin, x := xs, y := ys, name := alg,
    showlegend := false, mode := none, lineColor := c0, fillColor := some c1 }

/-- The `go.Scatter(...)` trace of one algorithm: per-instance averages,
`mode='lines'`, legend entry `alg` (Plotly shows scatter traces in the
legend by default, and the layout sets `showlegend=True`), line color
`colors[0]`. -/
def mkScatter (alg c0 : String) (axs : List Int) (ays : List ℚ) : Trace :=
  { kind := TraceKind.scatter, x := axs, y := ays, name := alg,
    showlegend := true, mode := some "lines", lineColor := c0, fillColor := none }

/-- The `for n, _ in self.instances` loop body of `create_figure` for one
algorithm: `runtime = self.result[alg][n]`, `xs += [n] * len(runtime)`,
`ys += runtime`, `axs += [n]`, `ays += [sum(runtime) / len(runtime)]` —
the division raises `ZeroDivisionError` when `runtime` is empty. -/
def buildSeriesData (result : Table) (alg : String) :
    List (Int × α) → Except FigError (List Int × List ℚ × List Int × List ℚ)
  | [] => Except.ok ([], [], [], [])
  | (n, _) :: rest =>
      if (result alg n).length = 0 then Except.error FigError.divisionByZero
      else
        match buildSeriesData result alg rest with
        | Except.error e => Except.error e
        | Except.ok (xs, ys, axs, ays) =>
            Except.ok (List.replicate (result alg n).length n ++ xs,
                       result alg n ++ ys,
                       n :: axs,
                       ((result alg n).sum / ((result alg n).length : ℚ)) :: ays)

/-- The `for i, (alg, _) in enumerate(self.algorithms)` loop of
`create_figure`: per algorithm, look up `colors = qualitative.Plotly[i],
qualitative.Plotly[(i + 5) % len(qualitative.Plotly)]`, build the series
data, and append the violin trace then the line trace. -/
def buildTraces (result : Table) (instances : List (Int × α)) :
    Nat → List (String × (α → β)) → Except FigError (List Trace)
  | _, [] => Except.ok []
  | i, (alg, _) :: rest =>
      match getColor i with
      | Except.error e => Except.error e
      | Except.ok c0 =>
          match getColor ((i + 5) % plotlyPalette.length) with
          | Except.error e => Except.error e
          | Except.ok c1 =>
              match buildSeriesData result alg instances with
              | Except.error e => Except.error e
              | Except.ok (xs, ys, axs, ays) =>
                  match buildTraces result instances (i + 1) rest with
                  | Except.error e => Except.error e
                  | Except.ok ts =>
                      Except.ok (mkViolin alg c0 c1 xs ys :: mkScatter alg c0 axs ays :: ts)

/-- `create_figure(self, title, width, height, xscale, yscale)`: builds the
traces, then sets the axis titles (suffixed with a log-scale marker exactly
when the scale string is `'log'`), the axis types (the scale strings
verbatim), and the layout. -/
def RunningTimeExperiment.create_figure (h : RunningTimeExperiment α β)
    (title : String) (width height : Nat) (xscale yscale : String) :
    Except FigError Figure :=
  match buildTraces h.result h.instances 0 h.algorithms with
  | Except.error e => Except.error e
  | Except.ok ts =>
      Except.ok
        { traces := ts
          xaxis_title := "Input size: n" ++ (if xscale = "log" then " [log scale]" else "")
          xaxis_type := xscale
          yaxis_title := "Running time (sec)" ++ (if yscale = "log" then " [log scale]" else "")
          yaxis_type := yscale
          title := title
          showlegend := true
          width := width
          height := height }

/-- Modelled from the spec (§4.1 distribution series): for every instance in
registration order, the instance's size repeated once per raw sample of the
algorithm at that size. -/
def specDistXs (result : Table) (alg : String) (instances : List (Int × α)) : List Int :=
  (instances.map (fun q => List.replicate (result alg q.1).length q.1)).flatten

/-- Modelled from the spec (§4.1 distribution series): for every instance in
registration order, all raw samples of the algorithm at that instance's
size. -/
def specDistYs (result : Table) (alg : String) (instances : List (Int × α)) : List ℚ :=
  (instances.map (fun q => result alg q.1)).flatten

/-- Modelled from the spec (§4.1 trend series): for every instance in
registration order, the arithmetic mean of the algorithm's samples at that
instance's size. -/
def specTrendYs (result : Table) (alg : String) (instances : List (Int × α)) : List ℚ :=
  instances.map (fun q => (result alg q.1).sum / (((result alg q.1).length : Nat) : ℚ))

/-- The trace list `create_figure` produces when nothing fails, in closed
form: violin then line trace per algorithm, colors indexed from `i`. -/
def specTraces (result : Table) (instances : List (Int × α)) :
    Nat → List (String × (α → β)) → List Trace
  | _, [] => []
  | i, (alg, _) :: rest =>
      mkViolin alg (plotlyPalette.getD i "") (plotlyPalette.getD ((i + 5) % plotlyPalette.length) "")
        (specDistXs result alg instances) (specDistYs result alg instances)
      :: mkScatter alg (plotlyPalette.getD i "") (instances.map Prod.fst)
           (specTrendYs result alg instances)
      :: specTraces result instances (i + 1) rest

theorem getColor_of_lt :
    ∀ i, i < plotlyPalette.length → getColor i = Except.ok (plotlyPalette.getD i "") := by
  intro i hi
  have hi10 : i < 10 := by simpa [plotlyPalette] using hi
  interval_cases i <;> rfl

theorem getColor_ok_lt (i : Nat) (c : String) (hc : getColor i = Except.ok c) :
    i < plotlyPalette.length ∧ c = plotlyPalette.getD i "" := by
  by_cases hi : i < plotlyPalette.length
  · refine ⟨hi, ?_⟩
    rw [getColor_of_lt i hi] at hc
    injection hc with hh
    exact hh.symm
  · have hnone : plotlyPalette.get? i = none := by
      rw [List.get?_eq_none]
      omega
    rw [getColor, hnone] at hc
    cases hc

theorem mod_palette_lt (i : Nat) : (i + 5) % plotlyPalette.length < plotlyPalette.length :=
  Nat.mod_lt _ (by decide)

theorem buildSeriesData_ok_eq (result : Table) (alg : String) :
    ∀ (l : List (Int × α)) (v : List Int × List ℚ × List Int × List ℚ),
      buildSeriesData result alg l = Except.ok v →
      v = (specDistXs result alg l, specDistYs result alg l,
           l.map Prod.fst, specTrendYs result alg l) := by
  intro l
  induction l with
  | nil =>
      intro v hv
      rw [buildSeriesData] at hv
      injection hv with hh
      simp [specDistXs, specDistYs, specTrendYs, ← hh]
  | cons q rest ih =>
      intro v hv
      obtain ⟨n, x⟩ := q
      rw [buildSeriesData] at hv
      by_cases h0 : (result alg n).length = 0
      · rw [if_pos h0] at hv
        cases hv
      · rw [if_neg h0] at hv
        rcases hbs : buildSeriesData result alg rest with e | ⟨xs, ys, axs, ays⟩ <;>
          rw [hbs] at hv
        · cases hv
        · injection hv with hh
          have hrec := ih (xs, ys, axs, ays) hbs
          simp only [Prod.mk.injEq] at hrec
          obtain ⟨h1, h2, h3, h4⟩ := hrec
          simp [← hh, specDistXs, specDistYs, specTrendYs, h1, h2, h3, h4]

theorem buildSeriesData_ok_of (result : Table) (alg : String) :
    ∀ (l : List (Int × α)), (∀ q ∈ l, result alg q.1 ≠ []) →
      buildSeriesData result alg l
        = Except.ok (specDistXs result alg l, specDistYs result alg l,
                     l.map Prod.fst, specTrendYs result alg l) := by
  intro l
  induction l with
  | nil =>
      intro _
      rw [buildSeriesData]
      simp [specDistXs, specDistYs, specTrendYs]
  | cons q rest ih =>
      intro hne
      obtain ⟨n, x⟩ := q
      have h0 : ¬ ((result alg n).length = 0) := by
        have hq := hne (n, x) (List.mem_cons_self _ _)
        simpa [List.length_eq_zero] using hq
      rw [buildSeriesData, if_neg h0, ih (fun q hq => hne q (List.mem_cons_of_mem _ hq))]
      simp [specDistXs, specDistYs, specTrendYs]

theorem specTraces_length (result : Table) (instances : List (Int × α)) :
    ∀ (algs : List (String × (α → β))) (i : Nat),
      (specTraces result instances i algs).length = 2 * algs.length := by
  intro algs
  induction algs with
  | nil => intro i; rfl
  | cons p rest ih =>
      intro i
      obtain ⟨alg, f⟩ := p
      rw [specTraces]
      simp [ih]
      ring

theorem specTraces_get (result : Table) (instances : List (Int × α)) :
    ∀ (algs : List (String × (α → β))) (i j : Nat) (hj : j < algs.length),
      (specTraces result instances i algs).get? (2 * j)
        = some (mkViolin (algs.get ⟨j, hj⟩).1 (plotlyPalette.getD (i + j) "")
            (plotlyPalette.getD ((i + j + 5) % plotlyPalette.length) "")
            (specDistXs result (algs.get ⟨j, hj⟩).1 instances)
            (specDistYs result (algs.get ⟨j, hj⟩).1 instances))
      ∧ (specTraces result instances i algs).get? (2 * j + 1)
        = some (mkScatter (algs.get ⟨j, hj⟩).1 (plotlyPalette.getD (i + j) "")
            (instances.map Prod.fst)
            (specTrendYs result (algs.get ⟨j, hj⟩).1 instances)) := by
  intro algs
  induction algs with
  | nil =>
      intro i j hj
      exact absurd hj (by simp)
  | cons p rest ih =>
      intro i j hj
      obtain ⟨alg, f⟩ := p
      cases j with
      | zero => simp [specTraces]
      | succ j =>
          have hj2 : j < rest.length := by
            simpa using Nat.lt_of_succ_lt_succ hj
          have hrec := ih (i + 1) j hj2
          have e1 : 2 * (j + 1) = 2 * j + 1 + 1 := by ring
          have e3 : i + 1 + j = i + (j + 1) := by ring
          rw [specTraces, e1]
          simp only [List.get?_cons_succ, List.get_cons_succ]
          rw [e3] at hrec
          exact hrec

theorem buildTraces_ok_eq (result : Table) (instances : List (Int × α)) :
    ∀ (algs : List (String × (α → β))) (i : Nat) (ts : List Trace),
      buildTraces result instances i algs = Except.ok ts →
      (∀ j, j < algs.length → i + j < plotlyPalette.length)
      ∧ ts = specTraces result instances i algs := by
  intro algs
  induction algs with
  | nil =>
      intro i ts hts
      rw [buildTraces] at hts
      injection hts with hh
      refine ⟨fun j hj => absurd hj (by simp), ?_⟩
      simpa [specTraces] using hh.symm
  | cons p rest ih =>
      intro i ts hts
      obtain ⟨alg, f⟩ := p
      rw [buildTraces] at hts
      rcases hc0 : getColor i with e | c0 <;> rw [hc0] at hts
      · cases hts
      rcases hc1 : getColor ((i + 5) % plotlyPalette.length) with e | c1 <;> rw [hc1] at hts
      · cases hts
      rcases hbs : buildSeriesData result alg instances with e | ⟨xs, ys, axs, ays⟩ <;>
        rw [hbs] at hts
      · cases hts
      rcases hbt : buildTraces result instances (i + 1) rest with e | ts2 <;> rw [hbt] at hts
      · cases hts
      injection hts with hh
      obtain ⟨hi, hc0v⟩ := getColor_ok_lt i c0 hc0
      obtain ⟨_, hc1v⟩ := getColor_ok_lt ((i + 5) % plotlyPalette.length) c1 hc1
      obtain ⟨hle, hts2⟩ := ih (i + 1) ts2 hbt
      have hv := buildSeriesData_ok_eq result alg instances (xs, ys, axs, ays) hbs
      simp only [Prod.mk.injEq] at hv
      obtain ⟨h1, h2, h3, h4⟩ := hv
      constructor
      · intro j hj
        cases j with
        | zero => simpa using hi
        | succ j =>
            have hj2 : j < rest.length := by
              simpa using Nat.lt_of_succ_lt_succ hj
            have := hle j hj2
            omega
      · rw [← hh, specTraces, hc0v, hc1v, hts2, h1, h2, h3, h4]

theorem buildTraces_ok_of (result : Table) (instances : List (Int × α)) :
    ∀ (algs : List (String × (α → β))) (i : Nat),
      i + algs.length ≤ plotlyPalette.length →
      (∀ p ∈ algs, ∀ q ∈ instances, result p.1 q.1 ≠ []) →
      buildTraces result instances i algs
        = Except.ok (specTraces result instances i algs) := by
  intro algs
  induction algs with
  | nil =>
      intro i _ _
      rw [buildTraces, specTraces]
  | cons p rest ih =>
      intro i hle hne
      obtain ⟨alg, f⟩ := p
      have hi : i < plotlyPalette.length := by
        simp only [List.length_cons] at hle
        omega
      have hle2 : (i + 1) + rest.length ≤ plotlyPalette.length := by
        simp only [List.length_cons] at hle
        omega
      have hinst : ∀ q ∈ instances, result alg q.1 ≠ [] :=
        fun q hq => hne (alg, f) (List.mem_cons_self _ _) q hq
      have hne2 : ∀ p ∈ rest, ∀ q ∈ instances, result p.1 q.1 ≠ [] :=
        fun p hp q hq => hne p (List.mem_cons_of_mem _ hp) q hq
      rw [buildTraces, getColor_of_lt i hi,
          getColor_of_lt ((i + 5) % plotlyPalette.length) (mod_palette_lt i),
          buildSeriesData_ok_of result alg instances hinst, ih (i + 1) hle2 hne2,
          specTraces]

/-- C4 (amended): with at least one registered algorithm and at least one
registered instance, calling `create_figure` before any `run` (fresh, empty
measurement table) does not return a chart: it fails with the division-by-zero
error raised while computing the mean of the first instance's empty sample
sequence. -/
theorem create_figure_prerun_error (h : RunningTimeExperiment α β)
    (t : String) (w ht : Nat) (xsc ysc : String)
    (hres : h.result = emptyTable) (hA : h.algorithms ≠ []) (hI : h.instances ≠ []) :
    h.create_figure t w ht xsc ysc = Except.error FigError.divisionByZero := by
  rcases hAe : h.algorithms with _ | ⟨⟨a0, f0⟩, as⟩
  · exact absurd hAe hA
  rcases hIe : h.instances with _ | ⟨⟨n0, x0⟩, is⟩
  · exact absurd hIe hI
  unfold RunningTimeExperiment.create_figure
  rw [hAe, hIe, hres]
  rfl

/-- Concrete harness with one instance, one algorithm and a fresh table. -/
def wPrerun : RunningTimeExperiment Nat Nat :=
  ⟨[((2 : Int), 0)], [("a", fun m => m)], emptyTable⟩

theorem create_figure_prerun_error_witness :
    wPrerun.create_figure "t" 800 800 "log" "log" = Except.error FigError.divisionByZero :=
  create_figure_prerun_error wPrerun "t" 800 800 "log" "log" rfl
    (by simp [wPrerun]) (by simp [wPrerun])

/-- Concrete harness with one instance, one algorithm and a fresh table. -/
def wPrerun2 : RunningTimeExperiment Nat Nat :=
  ⟨[((3 : Int), 1)], [("b", fun m => m + 1)], emptyTable⟩

/-- C4 counterexample: on a harness with one registered algorithm and one
registered instance and no prior `run`, `create_figure` does not return a
chart with empty series — it raises `ZeroDivisionError`
(`sum(runtime) / len(runtime)` with `len(runtime) == 0`). -/
theorem create_figure_prerun_counterexample :
    wPrerun2.create_figure "t" 800 800 "log" "log" = Except.error FigError.divisionByZero
    ∧ ¬ ∃ fig : Figure, wPrerun2.create_figure "t" 800 800 "log" "log" = Except.ok fig := by
  constructor
  · rfl
  · rintro ⟨fig, hfig⟩
    have hc : Except.error FigError.divisionByZero = Except.ok fig := hfig
    cases hc

/-- C8: whatever chart `create_figure(title, width, height, xscale, yscale)`
returns has axis types set to the scale arguments verbatim, x-axis title
`"Input size: n"` suffixed with `" [log scale]"` exactly when
`xscale == 'log'`, and y-axis title `"Running time (sec)"` suffixed the same
way for `yscale`; any other scale value produces no suffix. -/
theorem create_figure_axes (h : RunningTimeExperiment α β) (t : String) (w ht : Nat)
    (xsc ysc : String) (fig : Figure)
    (hok : h.create_figure t w ht xsc ysc = Except.ok fig) :
    fig.xaxis_type = xsc ∧ fig.yaxis_type = ysc
    ∧ (xsc = "log" → fig.xaxis_title = "Input size: n [log scale]")
    ∧ (xsc ≠ "log" → fig.xaxis_title = "Input size: n")
    ∧ (ysc = "log" → fig.yaxis_title = "Running time (sec) [log scale]")
    ∧ (ysc ≠ "log" → fig.yaxis_title = "Running time (sec)") := by
  unfold RunningTimeExperiment.create_figure at hok
  rcases hbt : buildTraces h.result h.instances 0 h.algorithms with e | ts <;> rw [hbt] at hok
  · cases hok
  injection hok with hfig
  subst hfig
  refine ⟨rfl, rfl, ?_, ?_, ?_, ?_⟩
  · intro hx
    show "Input size: n" ++ (if xsc = "log" then " [log scale]" else "") = _
    rw [if_pos hx]
    exact rfl
  · intro hx
    show "Input size: n" ++ (if xsc = "log" then " [log scale]" else "") = _
    rw [if_neg hx]
    exact rfl
  · intro hy
    show "Running time (sec)" ++ (if ysc = "log" then " [log scale]" else "") = _
    rw [if_pos hy]
    exact rfl
  · intro hy
    show "Running time (sec)" ++ (if ysc = "log" then " [log scale]" else "") = _
    rw [if_neg hy]
    exact rfl

/-- C6 (amended): any chart returned by `create_figure` gives the algorithm
at registration index `i` the primary color at palette index `i` — on both
its violin outline and its trend line — and the secondary fill color at
palette index `(i + 5) mod palette_size`. The primary index is used raw, so
such an `i` is necessarily below the palette size: registering more
algorithms than palette entries makes `create_figure` fail with an index
error instead of cycling the primary color. -/
theorem create_figure_colors (h : RunningTimeExperiment α β) (t : String) (w ht : Nat)
    (xsc ysc : String) (fig : Figure)
    (hok : h.create_figure t w ht xsc ysc = Except.ok fig)
    (i : Nat) (hi : i < h.algorithms.length) :
    i < plotlyPalette.length ∧
    ∃ tv tl : Trace,
      fig.traces.get? (2 * i) = some tv ∧ fig.traces.get? (2 * i + 1) = some tl ∧
      tv.lineColor = plotlyPalette.getD i "" ∧
      tv.fillColor = some (plotlyPalette.getD ((i + 5) % plotlyPalette.length) "") ∧
      tl.lineColor = plotlyPalette.getD i "" := by
  unfold RunningTimeExperiment.create_figure at hok
  rcases hbt : buildTraces h.result h.instances 0 h.algorithms with e | ts <;> rw [hbt] at hok
  · cases hok
  obtain ⟨hidx, hts⟩ := buildTraces_ok_eq h.result h.instances h.algorithms 0 ts hbt
  have hi10 : i < plotlyPalette.length := by
    have hh := hidx i hi
    omega
  injection hok with hfig
  subst hfig
  obtain ⟨hg1, hg2⟩ := specTraces_get h.result h.instances h.algorithms 0 i hi
  simp only [Nat.zero_add] at hg1 hg2
  refine ⟨hi10,
    mkViolin (h.algorithms.get ⟨i, hi⟩).1 (plotlyPalette.getD i "")
      (plotlyPalette.getD ((i + 5) % plotlyPalette.length) "")
      (specDistXs h.result (h.algorithms.get ⟨i, hi⟩).1 h.instances)
      (specDistYs h.result (h.algorithms.get ⟨i, hi⟩).1 h.instances),
    mkScatter (h.algorithms.get ⟨i, hi⟩).1 (plotlyPalette.getD i "")
      (h.instances.map Prod.fst)
      (specTrendYs h.result (h.algorithms.get ⟨i, hi⟩).1 h.instances),
    ?_, ?_, rfl, rfl, rfl⟩
  · show ts.get? (2 * i) = _
    rw [hts]
    exact hg1
  · show ts.get? (2 * i + 1) = _
    rw [hts]
    exact hg2

/-- C7 (amended): with `n ≥ 1` registered algorithms — at most the palette
size, `10`: beyond that `create_figure` fails with an index error — and a
nonempty sample sequence for every (algorithm, instance size) pair,
`create_figure` returns a chart of exactly `2 * n` series: per algorithm one
violin (distribution) series with no legend entry carrying every raw sample
at `x` = instance size (each size repeated once per sample, instances in
registration order) and one line (trend) series with legend entry the
algorithm name whose y-values are the arithmetic means of that algorithm's
samples at each instance's size. -/
theorem create_figure_series (h : RunningTimeExperiment α β) (t : String) (w ht : Nat)
    (xsc ysc : String)
    (hn : 1 ≤ h.algorithms.length)
    (hle : h.algorithms.length ≤ plotlyPalette.length)
    (hne : ∀ p ∈ h.algorithms, ∀ q ∈ h.instances, h.result p.1 q.1 ≠ []) :
    ∃ fig : Figure,
      h.create_figure t w ht xsc ysc = Except.ok fig
      ∧ fig.traces.length = 2 * h.algorithms.length
      ∧ ∀ j (hj : j < h.algorithms.length),
        ∃ tv tl : Trace,
          fig.traces.get? (2 * j) = some tv
          ∧ fig.traces.get? (2 * j + 1) = some tl
          ∧ tv.kind = TraceKind.violin ∧ tv.showlegend = false
          ∧ tv.x = specDistXs h.result (h.algorithms.get ⟨j, hj⟩).1 h.instances
          ∧ tv.y = specDistYs h.result (h.algorithms.get ⟨j, hj⟩).1 h.instances
          ∧ tl.kind = TraceKind.scatter ∧ tl.showlegend = true
          ∧ tl.name = (h.algorithms.get ⟨j, hj⟩).1
          ∧ tl.x = h.instances.map Prod.fst
          ∧ tl.y = specTrendYs h.result (h.algorithms.get ⟨j, hj⟩).1 h.instances := by
  have hbt := buildTraces_ok_of h.result h.instances h.algorithms 0 (by omega) hne
  refine ⟨{ traces := specTraces h.result h.instances 0 h.algorithms,
            xaxis_title := "Input size: n" ++ (if xsc = "log" then " [log scale]" else ""),
            xaxis_type := xsc,
            yaxis_title := "Running time (sec)" ++ (if ysc = "log" then " [log scale]" else ""),
            yaxis_type := ysc,
            title := t, showlegend := true, width := w, height := ht }, ?_, ?_, ?_⟩
  · unfold RunningTimeExperiment.create_figure
    rw [hbt]
  · show (specTraces h.result h.instances 0 h.algorithms).length = 2 * h.algorithms.length
    exact specTraces_length h.result h.instances h.algorithms 0
  · intro j hj
    obtain ⟨hg1, hg2⟩ := specTraces_get h.result h.instances h.algorithms 0 j hj
    simp only [Nat.zero_add] at hg1 hg2
    refine ⟨mkViolin (h.algorithms.get ⟨j, hj⟩).1 (plotlyPalette.getD j "")
        (plotlyPalette.getD ((j + 5) % plotlyPalette.length) "")
        (specDistXs h.result (h.algorithms.get ⟨j, hj⟩).1 h.instances)
        (specDistYs h.result (h.algorithms.get ⟨j, hj⟩).1 h.instances),
      mkScatter (h.algorithms.get ⟨j, hj⟩).1 (plotlyPalette.getD j "")
        (h.instances.map Prod.fst)
        (specTrendYs h.result (h.algorithms.get ⟨j, hj⟩).1 h.instances),
      ?_, ?_, rfl, rfl, rfl, rfl, rfl, rfl, rfl, rfl, rfl⟩
    · show (specTraces h.result h.instances 0 h.algorithms).get? (2 * j) = _
      exact hg1
    · show (specTraces h.result h.instances 0 h.algorithms).get? (2 * j + 1) = _
      exact hg2

/-- Concrete harness: one algorithm, one instance, one recorded sample. -/
def wColor : RunningTimeExperiment Nat Nat :=
  ⟨[((2 : Int), 0)], [("a", fun m => m)], fun _ _ => [1]⟩

/-- The figure `create_figure` returns on `wColor` with log/log scales. -/
def figColor : Figure :=
  ⟨specTraces wColor.result wColor.instances 0 wColor.algorithms,
   "Input size: n [log scale]", "log", "Running time (sec) [log scale]", "log",
   "t", true, 800, 800⟩

theorem figColor_ok :
    wColor.create_figure "t" 800 800 "log" "log" = Except.ok figColor := by
  have hbt := buildTraces_ok_of wColor.result wColor.instances wColor.algorithms 0
      (by decide) (by decide)
  unfold RunningTimeExperiment.create_figure
  rw [hbt]
  rfl

theorem create_figure_colors_witness :
    0 < plotlyPalette.length ∧
    ∃ tv tl : Trace,
      figColor.traces.get? (2 * 0) = some tv ∧ figColor.traces.get? (2 * 0 + 1) = some tl ∧
      tv.lineColor = plotlyPalette.getD 0 "" ∧
      tv.fillColor = some (plotlyPalette.getD ((0 + 5) % plotlyPalette.length) "") ∧
      tl.lineColor = plotlyPalette.getD 0 "" :=
  create_figure_colors wColor "t" 800 800 "log" "log" figColor figColor_ok 0 (by decide)

/-- Concrete harness with 11 registered algorithms — one more than the
palette has colors — and a nonempty sample for its single instance. -/
def wManyAlgs : RunningTimeExperiment Nat Nat :=
  ⟨[((2 : Int), 0)],
   [("a0", fun m => m), ("a1", fun m => m), ("a2", fun m => m), ("a3", fun m => m),
    ("a4", fun m => m), ("a5", fun m => m), ("a6", fun m => m), ("a7", fun m => m),
    ("a8", fun m => m), ("a9", fun m => m), ("a10", fun m => m)],
   fun _ _ => [1]⟩

/-- C6 counterexample: with 11 registered algorithms, `create_figure` does
not cycle the primary color through the palette — it raises `IndexError` at
`qualitative.Plotly[10]` and returns no chart at all. -/
theorem create_figure_colors_counterexample :
    wManyAlgs.create_figure "t" 800 800 "log" "log" = Except.error FigError.indexError
    ∧ ¬ ∃ fig : Figure, wManyAlgs.create_figure "t" 800 800 "log" "log" = Except.ok fig := by
  constructor
  · rfl
  · rintro ⟨fig, hfig⟩
    have hc : Except.error FigError.indexError = Except.ok fig := hfig
    cases hc

/-- Concrete harness: two algorithms, two instances, two samples per pair. -/
def wSeries : RunningTimeExperiment Nat Nat :=
  ⟨[((2 : Int), 0), ((4 : Int), 1)],
   [("a", fun m => m), ("b", fun m => m + 1)],
   fun _ _ => [1, 3]⟩

theorem create_figure_series_witness :
    ∃ fig : Figure,
      wSeries.create_figure "t" 800 800 "log" "log" = Except.ok fig
      ∧ fig.traces.length = 2 * wSeries.algorithms.length
      ∧ ∀ j (hj : j < wSeries.algorithms.length),
        ∃ tv tl : Trace,
          fig.traces.get? (2 * j) = some tv
          ∧ fig.traces.get? (2 * j + 1) = some tl
          ∧ tv.kind = TraceKind.violin ∧ tv.showlegend = false
          ∧ tv.x = specDistXs wSeries.result (wSeries.algorithms.get ⟨j, hj⟩).1 wSeries.instances
          ∧ tv.y = specDistYs wSeries.result (wSeries.algorithms.get ⟨j, hj⟩).1 wSeries.instances
          ∧ tl.kind = TraceKind.scatter ∧ tl.showlegend = true
          ∧ tl.name = (wSeries.algorithms.get ⟨j, hj⟩).1
          ∧ tl.x = wSeries.instances.map Prod.fst
          ∧ tl.y = specTrendYs wSeries.result (wSeries.algorithms.get ⟨j, hj⟩).1 wSeries.instances :=
  create_figure_series wSeries "t" 800 800 "log" "log" (by decide) (by decide) (by decide)

/-- Concrete harness with 11 registered algorithms (distinct names) and a
nonempty sample for its single instance. -/
def wSeriesMany : RunningTimeExperiment Nat Nat :=
  ⟨[((3 : Int), 1)],
   [("b0", fun m => m), ("b1", fun m => m), ("b2", fun m => m), ("b3", fun m => m),
    ("b4", fun m => m), ("b5", fun m => m), ("b6", fun m => m), ("b7", fun m => m),
    ("b8", fun m => m), ("b9", fun m => m), ("b10", fun m => m)],
   fun _ _ => [2]⟩

/-- C7 counterexample: a harness with `n = 11 ≥ 1` registered algorithms and
nonempty samples for every (algorithm, size) pair on which `create_figure`
returns no chart with `2 * n` series — it raises `IndexError` at
`qualitative.Plotly[10]`. -/
theorem create_figure_series_counterexample :
    wSeriesMany.create_figure "t" 800 800 "log" "log" = Except.error FigError.indexError
    ∧ ¬ ∃ fig : Figure, wSeriesMany.create_figure "t" 800 800 "log" "log" = Except.ok fig := by
  constructor
  · rfl
  · rintro ⟨fig, hfig⟩
    have hc : Except.error FigError.indexError = Except.ok fig := hfig
    cases hc

/-- The figure `create_figure` returns on `wColor` with log/linear scales. -/
def figAxes : Figure :=
  ⟨specTraces wColor.result wColor.instances 0 wColor.algorithms,
   "Input size: n [log scale]", "log", "Running time (sec)", "linear",
   "t2", true, 640, 480⟩

theorem figAxes_ok :
    wColor.create_figure "t2" 640 480 "log" "linear" = Except.ok figAxes := by
  have hbt := buildTraces_ok_of wColor.result wColor.instances wColor.algorithms 0
      (by decide) (by decide)
  unfold RunningTimeExperiment.create_figure
  rw [hbt]
  rfl

theorem create_figure_axes_witness :
    figAxes.xaxis_type = "log" ∧ figAxes.yaxis_type = "linear"
    ∧ figAxes.xaxis_title = "Input size: n [log scale]"
    ∧ figAxes.yaxis_title = "Running time (sec)" := by
  obtain ⟨h1, h2, h3, h4, h5, h6⟩ :=
    create_figure_axes wColor "t2" 640 480 "log" "linear" figAxes figAxes_ok
  exact ⟨h1, h2, h3 rfl, h6 (by decide)⟩
